import Mathlib

/-!
Shallow embedding of the apinator-io/sdk-js realtime client:
the connection state machine with reconnection/keepalive (src/connection.ts),
the channel / presence-channel model (src/channel.ts) and the client-level
registry with the subscribe handshake (src/index.ts).

JSON values decoded by the platform's JSON.parse are modelled by the
inductive `Json`; a raw wire string together with the result of JSON.parse
on it is modelled by `RawJson` (parsed = none means JSON.parse throws).
Timers armed with setTimeout are modelled by option-valued fields of the
state (a field holding `some _` is the single pending single-shot timer);
timer expiry and socket callbacks are explicit events of a step function.
-/

/-- JSON values, as produced by JSON.parse. Numbers are modelled as integers
(all numeric fields the protocol uses are integral). Objects produced by
JSON.parse have unique keys, looked up by first occurrence. -/
inductive Json where
  | null
  | bool (b : Bool)
  | num (n : Int)
  | str (s : String)
  | arr (elems : List Json)
  | obj (fields : List (String × Json))

/-- Entries of a JS value viewed as a property map: object fields, or the
index-keyed entries of an array (JS arrays are objects with numeric-string
keys); primitives have no own properties. -/
def Json.entries : Json → List (String × Json)
  | .obj fs => fs
  | .arr xs => (xs.enum.map fun p => (toString p.1, p.2))
  | _ => []

/-- Property lookup `j[k]`, `undefined` modelled as `none`. -/
def jsGet (j : Json) (k : String) : Option Json :=
  j.entries.lookup k

/-- JS truthiness of a decoded JSON value. -/
def truthy : Json → Bool
  | .null => false
  | .bool b => b
  | .num n => n != 0
  | .str s => s != ""
  | .arr _ => true
  | .obj _ => true

/-- `typeof v === "object"` for a decoded JSON value (true for objects,
arrays and null). -/
def isObjectLike : Json → Bool
  | .obj _ => true
  | .arr _ => true
  | .null => true
  | _ => false

/-- A raw wire string together with the result of JSON.parse on it
(`parsed = none`: JSON.parse throws on this string). -/
structure RawJson where
  raw : String
  parsed : Option Json

/-- Wire frame `{event, channel?, data}` (src/types.ts `Message`);
`data` is a JSON-encoded string, carried with its parse result. -/
structure Message where
  event : String
  channel : Option String
  data : RawJson

/-! ## Connection state machine (src/connection.ts) -/

/-- Connection lifecycle states (src/connection.ts `ConnectionState`). -/
inductive ConnectionState where
  | initialized
  | connecting
  | connected
  | unavailable
  | disconnected
deriving DecidableEq, Repr

/-- The single `activityTimer` field of Connection holds either the main
activity-timeout timer (armed by resetActivityTimer, firing sends a ping)
or the 30s grace timer armed after the ping was sent. -/
inductive ActTimer where
  | main (timeoutSeconds : Json)
  | grace

/-- Mutable state of the `Connection` class. `ws = true` models a non-null
`this.ws`; `reconnectTimer = some d` models the pending reconnect
setTimeout with delay `d` ms; `socketId` stores whatever JS value
`data.socket_id` held (`none` = null/undefined). -/
structure Connection where
  ws : Bool
  state : ConnectionState
  reconnectAttempts : Nat
  reconnectTimer : Option Nat
  activityTimer : Option ActTimer
  socketId : Option Json

/-- A fresh `Connection` object. -/
def Connection.init : Connection :=
  { ws := false, state := .initialized, reconnectAttempts := 0,
    reconnectTimer := none, activityTimer := none, socketId := none }

/-- Observable side effects of connection code: state-change notifications,
the `onMessage` callback, socket closes and outbound frames. -/
inductive ConnEff where
  | stateChange (previous current : ConnectionState)
  | emitMessage (m : Message)
  | wsClose (code : Nat)
  | wsForceClose
  | sendFrame (m : Message)

/-- `setState`: record the transition and notify when the state changed. -/
def Connection.setState (c : Connection) (s : ConnectionState) :
    Connection × List ConnEff :=
  let prev := c.state
  let c := { c with state := s }
  if prev ≠ s then (c, [.stateChange prev s]) else (c, [])

/-- `clearTimers`: cancel the pending reconnect and activity timers. -/
def Connection.clearTimers (c : Connection) : Connection :=
  { c with reconnectTimer := none, activityTimer := none }

/-- `resetActivityTimer`: cancel any previous activity timer and arm the
main timer with the given timeout value. -/
def Connection.resetActivityTimer (c : Connection) (timeoutSeconds : Json) :
    Connection :=
  { c with activityTimer := some (.main timeoutSeconds) }

/-- `disconnect()`: clear timers, go to `disconnected`, close the socket
with the normal-closure code 1000 if one is open. -/
def Connection.disconnect (c : Connection) : Connection × List ConnEff :=
  let c := c.clearTimers
  let r := c.setState .disconnected
  if r.1.ws then ({ r.1 with ws := false }, r.2 ++ [.wsClose 1000])
  else (r.1, r.2)

/-- `handleDisconnect()`: drop the socket, clear timers; while not already
`disconnected`, either schedule one reconnect attempt after
`min(1000 * 2^attempts, 30000)` ms (pre-increment attempts < 6) or go
`unavailable`. -/
def Connection.handleDisconnect (c : Connection) : Connection × List ConnEff :=
  let c := { c with ws := false }
  let c := c.clearTimers
  if c.state = .disconnected then (c, [])
  else if c.reconnectAttempts < 6 then
    let r := c.setState .connecting
    let delay := min (1000 * 2 ^ r.1.reconnectAttempts) 30000
    ({ r.1 with reconnectAttempts := r.1.reconnectAttempts + 1,
                reconnectTimer := some delay }, r.2)
  else c.setState .unavailable

/-- `send(msg)`: best effort, dropped when no socket is open. -/
def Connection.send (c : Connection) (m : Message) : List ConnEff :=
  if c.ws then [.sendFrame m] else []

/-- ASCII whitespace trimmed by the JS ToNumber conversion. -/
def isWsChar (c : Char) : Bool :=
  c = ' ' || c = '\t' || c = '\n' || c = '\r'

/-- Decimal digit value of a character. -/
def digitVal (c : Char) : Option Nat :=
  let n := c.toNat
  if 48 ≤ n && n ≤ 57 then some (n - 48) else none

/-- Value of a non-empty all-digit character list; `none` otherwise. -/
def digitsToNat (cs : List Char) : Option Nat :=
  if cs.isEmpty then none
  else cs.foldl (fun acc c =>
    match acc, digitVal c with
    | some a, some d => some (a * 10 + d)
    | _, _ => none) (some 0)

/-- JS `ToNumber` on a string, `none` = NaN: whitespace is trimmed, the
empty string is 0, an optionally signed decimal integer literal is its
value. Fractional, exponent and hex forms denote values outside the
integral numeric domain of this embedding (see `Json`) and map to NaN. -/
def strToNum (s : String) : Option Int :=
  let cs := ((s.data.dropWhile isWsChar).reverse.dropWhile isWsChar).reverse
  match cs with
  | [] => some 0
  | '-' :: rest => (digitsToNat rest).map (fun n => -(n : Int))
  | '+' :: rest => (digitsToNat rest).map (fun n => (n : Int))
  | _ => (digitsToNat cs).map (fun n => (n : Int))

/-- JS numeric coercion of a decoded JSON value, as a relational
comparison against a number performs it (`ToNumber` after `ToPrimitive`);
`none` = NaN. Null is 0, booleans are 0/1, strings parse as numeric
literals, an array converts through its comma-join — empty to 0, a
singleton through its element's string form, two or more elements always
contain a comma and are NaN — and a plain object is NaN. -/
def jsToNum : Json → Option Int
  | .null => some 0
  | .bool b => some (if b then 1 else 0)
  | .num n => some n
  | .str s => strToNum s
  | .obj _ => none
  | .arr [] => some 0
  | .arr [.null] => some 0
  | .arr [.bool _] => none
  | .arr [.num n] => some n
  | .arr [.str s] => strToNum s
  | .arr [.obj _] => none
  | .arr [.arr ys] => jsToNum (.arr ys)
  | .arr (_ :: _ :: _) => none

/-- Property access `d[k]` as the source performs it: a TypeError on a
null payload (`none`; JSON.parse never yields undefined), otherwise the
property value, with `undefined` as `some none`. -/
def jsAccess : Json → String → Option (Option Json)
  | .null, _ => none
  | j, k => some (jsGet j k)

/-- `data.code >= 4000 && data.code <= 4004` on the accessed property:
the comparison coerces its operand, so numeric strings and singleton
arrays whose value lands in 4000..4004 are fatal too; undefined and NaN
compare false. -/
def isFatalCode (v : Option Json) : Bool :=
  match v with
  | none => false
  | some j =>
    match jsToNum j with
    | some n => 4000 ≤ n ∧ n ≤ 4004
    | none => false

/-- `data.activity_timeout || 120`: the field's value when truthy,
otherwise 120. -/
def activityTimeoutOf (d : Json) : Json :=
  let v := (jsGet d "activity_timeout").getD .null
  if truthy v then v else .num 120

/-- `handleMessage(msg)`: establishment stores the socket id and arms the
keepalive; a fatal `realtime:error` takes the `disconnect()` path and
returns before the `onMessage` callback; every other decoded frame reaches
`onMessage` exactly once. Returns `none` when the handler throws: when
`JSON.parse(msg.data)` fails on a control frame, or when the decoded
payload is null and the property access (`data.socket_id` / `data.code`)
raises a TypeError (loud protocol-contract failure either way). -/
def Connection.handleMessage (c : Connection) (msg : Message) :
    Option (Connection × List ConnEff) :=
  if msg.event = "realtime:connection_established" then
    match msg.data.parsed with
    | none => none
    | some d =>
      match jsAccess d "socket_id" with
      | none => none
      | some sid =>
        let c := { c with socketId := sid }
        let timeout := activityTimeoutOf d
        let r := c.setState .connected
        let c := r.1.resetActivityTimer timeout
        some (c, r.2 ++ [.emitMessage msg])
  else if msg.event = "realtime:pong" then
    some (c, [.emitMessage msg])
  else if msg.event = "realtime:error" then
    match msg.data.parsed with
    | none => none
    | some d =>
      match jsAccess d "code" with
      | none => none
      | some codeProp =>
        if isFatalCode codeProp then some c.disconnect
        else some (c, [.emitMessage msg])
  else
    some (c, [.emitMessage msg])

/-- `connect()`: no-op while `connecting`/`connected`, otherwise go
`connecting` and open a new socket. -/
def Connection.connect (c : Connection) : Connection × List ConnEff :=
  if c.state = .connected ∨ c.state = .connecting then (c, [])
  else
    let r := c.setState .connecting
    ({ r.1 with ws := true }, r.2)

/-- External events driving a `Connection`: an inbound text frame with its
outer parse result (`none` = malformed, silently ignored), the socket
close callback, the public calls, and the three single-shot timers. -/
inductive ConnEvent where
  | frame (parse : Option Message)
  | closeEvt
  | userDisconnect
  | userConnect
  | pingFire
  | graceFire
  | reconnectFire

/-- The ping control frame sent by the activity timer. -/
def pingFrame : Message :=
  { event := "realtime:ping", channel := none, data := ⟨"\x7b\x7d", some (.obj [])⟩ }

/-- One step of the connection event loop. `none`: an unhandled exception
escaped (nested JSON.parse failure on a control frame). Frames only arrive
while a socket exists; the close callback may fire for an already-dropped
socket. -/
def Connection.step (c : Connection) (e : ConnEvent) :
    Option (Connection × List ConnEff) :=
  match e with
  | .frame none => some (c, [])
  | .frame (some m) => if c.ws then c.handleMessage m else some (c, [])
  | .closeEvt => some c.handleDisconnect
  | .userDisconnect => some c.disconnect
  | .userConnect => some c.connect
  | .pingFire =>
    match c.activityTimer with
    | some (.main _) =>
      some ({ c with activityTimer := some .grace }, c.send pingFrame)
    | _ => some (c, [])
  | .graceFire =>
    match c.activityTimer with
    | some .grace =>
      some ({ c with activityTimer := none },
            if c.ws then [.wsForceClose] else [])
    | _ => some (c, [])
  | .reconnectFire =>
    match c.reconnectTimer with
    | some _ =>
      let c := { c with reconnectTimer := none }
      some c.connect
    | none => some (c, [])

/-- Run a sequence of connection events, accumulating effects; `none` when
any step throws. -/
def Connection.run (c : Connection) :
    List ConnEvent → Option (Connection × List ConnEff)
  | [] => some (c, [])
  | e :: es =>
    match c.step e with
    | none => none
    | some (c1, effs1) =>
      match c1.run es with
      | none => none
      | some (c2, effs2) => some (c2, effs1 ++ effs2)

/-- True when the event is the arrival of a `realtime:connection_established`
frame (the only event that writes `socketId`). -/
def evtEstablishes : ConnEvent → Bool
  | .frame (some m) => m.event = "realtime:connection_established"
  | _ => false

/-! ## Channels and presence state (src/channel.ts) -/

/-- A presence member record `{user_id, user_info}` (src/types.ts
`PresenceInfo`); `user_info` is an arbitrary decoded JSON payload. -/
structure PresenceInfo where
  user_id : String
  user_info : Json

/-- The `presence` field of a `PresenceChannel`:
`{count, ids, hash}`. The hash is kept as the decoded JSON value the
snapshot supplied (an object in every well-formed snapshot). -/
structure PresenceState where
  count : Int
  ids : List String
  hash : Json

/-- Channel state shared by `Channel` and `PresenceChannel`. Event
bindings hold opaque user callbacks; emissions are modelled as effects at
the registry layer, so only `_subscribed` and the presence fields are
state. For a plain `Channel` the presence fields are inert. -/
structure PChan where
  subscribed : Bool := false
  presence : PresenceState := ⟨0, [], .obj []⟩
  self : Option PresenceInfo := none

/-- Update `h[k] = v` by JS object spread: replace the value in place when
the key exists, append otherwise. -/
def hashSet (h : Json) (k : String) (v : Json) : Json :=
  let es := h.entries
  if es.any fun p => p.1 = k then
    .obj (es.map fun p => if p.1 = k then (k, v) else p)
  else
    .obj (es ++ [(k, v)])

/-- Remove key `k` from the hash (rest-destructuring in the source). -/
def hashDelete (h : Json) (k : String) : Json :=
  .obj (h.entries.filter fun p => p.1 ≠ k)

/-- The `isPresenceData` guard of src/channel.ts: a decoded payload whose
truthy object `presence` field carries a numeric `count`, an array `ids`
and a truthy object-typed `hash`. -/
def isPresenceData (d : Json) : Bool :=
  match jsGet d "presence" with
  | none => false
  | some p =>
    truthy p && isObjectLike p &&
    (match jsGet p "count" with | some (.num _) => true | _ => false) &&
    (match jsGet p "ids" with | some (.arr _) => true | _ => false) &&
    (match jsGet p "hash" with | some h => truthy h && isObjectLike h | none => false)

/-- `PresenceChannel.clearPresenceState`. -/
def PChan.clearPresenceState (ch : PChan) : PChan :=
  { ch with presence := ⟨0, [], .obj []⟩, self := none }

/-- `PresenceChannel.getMembers`: one entry per id in the sequence whose
hash entry is truthy; ids with a missing or falsy entry are skipped. -/
def PChan.getMembers (ch : PChan) : List PresenceInfo :=
  ch.presence.ids.filterMap fun uid =>
    match jsGet ch.presence.hash uid with
    | some v => if truthy v then some ⟨uid, v⟩ else none
    | none => none

/-- `PresenceChannel.getMember`. -/
def PChan.getMember (ch : PChan) (uid : String) : Option PresenceInfo :=
  match jsGet ch.presence.hash uid with
  | some v => if truthy v then some ⟨uid, v⟩ else none
  | none => none

/-- `PresenceChannel.memberCount` accessor. -/
def PChan.memberCount (ch : PChan) : Int :=
  ch.presence.count

/-- `PresenceChannel.handleSubscribed(data, self)`: wholesale reset, then
rebuild from the snapshot when `isPresenceData` holds — ids filtered to
strings, hash taken as sent (`?? \x7b\x7d` for null), count taken from the
wire and immediately overwritten with the id-sequence length; malformed
non-null payloads only warn. Finally the super class marks subscribed. -/
def PChan.handleSubscribed (ch : PChan) (data : Json) (self : Option PresenceInfo) :
    PChan :=
  let ch := ch.clearPresenceState
  let ch := match self with
    | some s => { ch with self := some s }
    | none => ch
  let ch :=
    if isPresenceData data then
      let p := (jsGet data "presence").getD .null
      let idsJ := match jsGet p "ids" with | some (.arr xs) => xs | _ => []
      let hash := (jsGet p "hash").getD (.obj [])
      let wireCount : Int := match jsGet p "count" with | some (.num n) => n | _ => 0
      let ids := idsJ.filterMap fun j => match j with | .str s => some s | _ => none
      let st : PresenceState := ⟨wireCount, ids, hash⟩
      { ch with presence := { st with count := (st.ids.length : Int) } }
    else ch
  { ch with subscribed := true }

/-- `Channel.handleSubscribed` for a plain channel: mark subscribed. -/
def PChan.handleSubscribedPlain (ch : PChan) : PChan :=
  { ch with subscribed := true }

/-- `Channel.handleError`: mark unsubscribed. -/
def PChan.handleError (ch : PChan) : PChan :=
  { ch with subscribed := false }

/-- `PresenceChannel.handleMemberAdded`: append the id when absent, upsert
the hash entry, recompute count from the id sequence. -/
def PChan.handleMemberAdded (ch : PChan) (info : PresenceInfo) : PChan :=
  let ids :=
    if ch.presence.ids.contains info.user_id then ch.presence.ids
    else ch.presence.ids ++ [info.user_id]
  let hash := hashSet ch.presence.hash info.user_id info.user_info
  { ch with presence := ⟨(ids.length : Int), ids, hash⟩ }

/-- `PresenceChannel.handleMemberRemoved`: drop the id and its hash entry,
recompute count. -/
def PChan.handleMemberRemoved (ch : PChan) (uid : String) : PChan :=
  let ids := ch.presence.ids.filter fun i => i ≠ uid
  let hash := hashDelete ch.presence.hash uid
  { ch with presence := ⟨(ids.length : Int), ids, hash⟩ }

/-- Snapshot id list as stored by `handleSubscribed` (empty for a payload
the guard rejects): closed form of the id sequence, read off the source. -/
def snapIds (data : Json) : List String :=
  if isPresenceData data then
    let p := (jsGet data "presence").getD .null
    let idsJ := match jsGet p "ids" with | some (.arr xs) => xs | _ => []
    idsJ.filterMap fun j => match j with | .str s => some s | _ => none
  else []

/-- Snapshot hash as stored by `handleSubscribed`. -/
def snapHash (data : Json) : Json :=
  if isPresenceData data then
    ((jsGet ((jsGet data "presence").getD .null) "hash").getD (.obj []))
  else .obj []

/-- Member list determined by a snapshot alone: closed form of
`getMembers` after `handleSubscribed`, independent of any prior state. -/
def membersFromSnapshot (data : Json) : List PresenceInfo :=
  (snapIds data).filterMap fun uid =>
    match jsGet (snapHash data) uid with
    | some v => if truthy v then some ⟨uid, v⟩ else none
    | none => none

/-- Whether the snapshot hash holds a truthy entry for `uid`. -/
def truthyGet (h : Json) (uid : String) : Bool :=
  match jsGet h uid with
  | some v => truthy v
  | none => false

/-! ## Client registry and subscribe handshake (src/index.ts) -/

/-- Association-list lookup keyed by channel name (first match; JS Map
keys are unique). -/
def alookup {α : Type} : List (String × α) → String → Option α
  | [], _ => none
  | (k, v) :: rest, key => if k = key then some v else alookup rest key

/-- JS `Map.delete`. -/
def pdelete {α : Type} (l : List (String × α)) (key : String) :
    List (String × α) :=
  l.filter fun p => p.1 ≠ key

/-- JS `Map.set`: replace in place when the key exists, append otherwise. -/
def pset {α : Type} (l : List (String × α)) (key : String) (v : α) :
    List (String × α) :=
  if l.any fun p => p.1 = key then
    l.map fun p => if p.1 = key then (key, v) else p
  else l ++ [(key, v)]


/-- `String.startsWith`, computed on the underlying character list (the
kernel cannot evaluate the built-in byte-substring version). -/
def strStarts (s p : String) : Bool :=
  p.data.isPrefixOf s.data

/-- Auth gateway success payload `{auth, channel_data?}` (src/types.ts
`AuthResponse`); the opaque channel data is a JSON-encoded string carried
with its parse result. -/
structure AuthResponse where
  auth : String
  channel_data : Option RawJson

/-- `!x` on an optional string: absent or empty. -/
def strFalsy : Option String → Bool
  | none => true
  | some s => s = ""

/-- Observable effects of registry code: a subscription-error signal on
the channel (`handleError` payload `{type, error, status}`), outbound
subscribe/unsubscribe frames handed to `connection.send`, and the internal
client-event binding installed at registration. -/
inductive SubEff where
  | errorSignal (kind reason : String) (status : Nat)
  | subscribeFrame (channel : String) (auth : Option String)
      (channel_data : Option String)
  | unsubscribeFrame (channel : String)
  | bindInternal (channel : String)

/-- `parsePresenceSelf` (src/index.ts): decode auth channel data to a self
identity — JSON.parse must succeed and yield a value with a non-empty
string `user_id` and a truthy, object-typed, non-array `user_info`. -/
def parsePresenceSelf (cd : RawJson) : Option PresenceInfo :=
  match cd.parsed with
  | none => none
  | some j =>
    match jsGet j "user_id", jsGet j "user_info" with
    | some (.str s), some (.obj fs) =>
      if s = "" then none else some ⟨s, .obj fs⟩
    | _, _ => none

/-- The part of `sendSubscribe` after `await fetchAuth` resolves (the rest
of the try block, and the catch). `result` is the gateway outcome; the
code consults only the captured channel name and the pending-self map, so
it runs the same whether or not the channel is still registered. -/
def authContinuation (pending : List (String × PresenceInfo)) (name : String)
    (isPres : Bool) (result : Except String AuthResponse) :
    List (String × PresenceInfo) × List SubEff :=
  match result with
  | .error e => (pdelete pending name, [.errorSignal "AuthError" e 403])
  | .ok resp =>
    if isPres then
      match resp.channel_data with
      | none =>
        (pdelete pending name,
         [.errorSignal "AuthError" "channel_data required for presence channels" 403])
      | some cd =>
        if cd.raw = "" then
          (pdelete pending name,
           [.errorSignal "AuthError" "channel_data required for presence channels" 403])
        else
          match parsePresenceSelf cd with
          | none =>
            (pdelete pending name,
             [.errorSignal "AuthError" "invalid channel_data" 403])
          | some s =>
            (pset pending name s,
             [.subscribeFrame name (some resp.auth) (some cd.raw)])
    else
      (pending,
       [.subscribeFrame name (some resp.auth)
         (match resp.channel_data with
          | some cd => if cd.raw = "" then none else some cd.raw
          | none => none)])

/-- `Apinator.sendSubscribe(channel)` as one function of the eventual auth
outcome: prefix classification, the missing-endpoint and not-connected
guards, then the post-await continuation; public channels send the frame
without auth. -/
def sendSubscribe (endpoint connId : Option String)
    (pending : List (String × PresenceInfo)) (name : String)
    (result : Except String AuthResponse) :
    List (String × PresenceInfo) × List SubEff :=
  if strStarts name "private-" || strStarts name "presence-" then
    if strFalsy endpoint then
      (pending, [.errorSignal "AuthError" "No auth endpoint configured" 403])
    else if strFalsy connId then
      (pending, [.errorSignal "AuthError" "Not connected" 403])
    else authContinuation pending name (strStarts name "presence-") result
  else (pending, [.subscribeFrame name none none])

/-- A registered channel instance: its name, the presence/plain variant
tag chosen from the name at creation, and the channel state. -/
structure ChanM where
  name : String
  isPresence : Bool
  ch : PChan

/-- Client state (the `Apinator` class): the channel registry, the
pending-self-identity map, configuration, the connection id and state as
the registry reads them, and the names with an auth call in flight (the
set of unresolved `fetchAuth` promises of the event loop). -/
structure ApinatorM where
  channels : List (String × ChanM)
  pendingPresenceSelf : List (String × PresenceInfo)
  authEndpoint : Option String
  connId : Option String
  connState : ConnectionState
  inflightAuth : List String

/-- `Apinator.subscribe(name)`: return the registered instance unchanged
when present; otherwise create the variant chosen by the name, register
it, install the internal trigger binding and — only when connected — begin
the subscribe handshake (for auth channels that passes the guards and
leaves a gateway call in flight). -/
def ApinatorM.subscribe (a : ApinatorM) (name : String) :
    ChanM × ApinatorM × List SubEff :=
  match alookup a.channels name with
  | some c => (c, a, [])
  | none =>
    let c : ChanM := ⟨name, strStarts name "presence-", {}⟩
    let a := { a with channels := a.channels ++ [(name, c)] }
    let es := [SubEff.bindInternal name]
    if a.connState = .connected then
      if strStarts name "private-" || strStarts name "presence-" then
        if strFalsy a.authEndpoint then
          (c, a, es ++ [.errorSignal "AuthError" "No auth endpoint configured" 403])
        else if strFalsy a.connId then
          (c, a, es ++ [.errorSignal "AuthError" "Not connected" 403])
        else (c, { a with inflightAuth := a.inflightAuth ++ [name] }, es)
      else (c, a, es ++ [.subscribeFrame name none none])
    else (c, a, es)

/-- `Apinator.unsubscribe(name)`: no-op when unregistered; otherwise hand
an unsubscribe frame to the connection, drop the pending self identity,
clear presence state and bindings of the removed instance, and remove it
from the registry. -/
def ApinatorM.unsubscribe (a : ApinatorM) (name : String) :
    ApinatorM × List SubEff :=
  match alookup a.channels name with
  | none => (a, [])
  | some _ =>
    let a := { a with pendingPresenceSelf := pdelete a.pendingPresenceSelf name }
    ({ a with channels := pdelete a.channels name }, [.unsubscribeFrame name])

/-- The `isPresenceInfo` guard of src/index.ts, as a decoder. -/
def decodePresenceInfo (d : Json) : Option PresenceInfo :=
  if truthy d && isObjectLike d then
    match jsGet d "user_id", jsGet d "user_info" with
    | some (.str s), some (.obj fs) =>
      if s = "" then none else some ⟨s, .obj fs⟩
    | _, _ => none
  else none

/-- The `isPresenceMemberRemovedData` guard of src/index.ts, as a decoder. -/
def decodeMemberRemoved (d : Json) : Option String :=
  if truthy d && isObjectLike d then
    match jsGet d "user_id" with
    | some (.str s) => if s = "" then none else some s
    | _ => none
  else none

/-- `Apinator.handleMessage` restricted to its registry effects: dispatch
an inbound frame to the addressed channel (global bindings mutate no
registry state). `parseData` falls back to the raw string when the payload
is not JSON. Frames for unregistered channels are dropped. -/
def ApinatorM.routeMessage (a : ApinatorM) (m : Message) :
    ApinatorM × List SubEff :=
  match m.channel with
  | none => (a, [])
  | some chName =>
    match alookup a.channels chName with
    | none => (a, [])
    | some c =>
      let data := m.data.parsed.getD (.str m.data.raw)
      if m.event = "realtime:subscription_succeeded" then
        if c.isPresence then
          let self := alookup a.pendingPresenceSelf chName
          let c := { c with ch := c.ch.handleSubscribed data self }
          ({ a with channels := pset a.channels chName c,
                    pendingPresenceSelf := pdelete a.pendingPresenceSelf chName },
           [])
        else
          let cs := pset a.channels chName ({ c with ch := c.ch.handleSubscribedPlain })
          ({ a with channels := cs }, [])
      else if m.event = "realtime:subscription_error" then
        let a := { a with pendingPresenceSelf := pdelete a.pendingPresenceSelf chName }
        let ch := if c.isPresence then c.ch.clearPresenceState.handleError
                  else c.ch.handleError
        ({ a with channels := pset a.channels chName ({ c with ch := ch }) }, [])
      else if m.event = "realtime:member_added" && c.isPresence then
        match decodePresenceInfo data with
        | none => (a, [])
        | some info =>
          let cs := pset a.channels chName ({ c with ch := c.ch.handleMemberAdded info })
          ({ a with channels := cs }, [])
      else if m.event = "realtime:member_removed" && c.isPresence then
        match decodeMemberRemoved data with
        | none => (a, [])
        | some uid =>
          let cs := pset a.channels chName ({ c with ch := c.ch.handleMemberRemoved uid })
          ({ a with channels := cs }, [])
      else (a, [])

/-- Client-level events: the public subscribe/unsubscribe calls, the
resolution of an in-flight auth gateway call, and an inbound frame routed
by the connection. -/
inductive AppEvent where
  | subscribeEvt (name : String)
  | unsubscribeEvt (name : String)
  | authResolveEvt (name : String) (result : Except String AuthResponse)
  | frameEvt (m : Message)

/-- One step of the client event loop. An auth resolution runs the
post-await continuation of `sendSubscribe` for a call actually in flight,
whether or not the channel is still registered. -/
def ApinatorM.stepApp (a : ApinatorM) (e : AppEvent) : ApinatorM × List SubEff :=
  match e with
  | .subscribeEvt n =>
    let r := a.subscribe n
    (r.2.1, r.2.2)
  | .unsubscribeEvt n => a.unsubscribe n
  | .authResolveEvt n result =>
    if a.inflightAuth.contains n then
      let a := { a with inflightAuth := a.inflightAuth.erase n }
      let r := authContinuation a.pendingPresenceSelf n
        (strStarts n "presence-") result
      ({ a with pendingPresenceSelf := r.1 }, r.2)
    else (a, [])
  | .frameEvt m => a.routeMessage m

/-- Run a sequence of client events, keeping the final state. -/
def ApinatorM.runApp (a : ApinatorM) (es : List AppEvent) : ApinatorM :=
  es.foldl (fun s e => (s.stepApp e).1) a

/-! ## Concrete example states and frames -/

/-- A connected connection with no failed attempts and the main keepalive
timer armed. -/
def connEx : Connection :=
  { ws := true, state := .connected, reconnectAttempts := 0,
    reconnectTimer := none, activityTimer := some (.main (.num 120)),
    socketId := some (.str "123.456") }

/-- A connection in `connecting` whose reconnect counter has reached the
ceiling: the next unexpected close is the 7th consecutive failure. -/
def exhaustedConnEx : Connection :=
  { ws := true, state := .connecting, reconnectAttempts := 6,
    reconnectTimer := none, activityTimer := none,
    socketId := some (.str "123.456") }

/-- A connected connection that has sent its keepalive ping: the 30s grace
timer is running. -/
def graceConnEx : Connection :=
  { ws := true, state := .connected, reconnectAttempts := 0,
    reconnectTimer := none, activityTimer := some .grace,
    socketId := some (.str "123.456") }

/-- An inbound `realtime:pong` control frame. -/
def pongMsg : Message :=
  { event := "realtime:pong", channel := none,
    data := ⟨"\x7b\x7d", some (.obj [])⟩ }

/-- An inbound `realtime:error` frame with the fatal code 4001. -/
def fatalErrMsg : Message :=
  { event := "realtime:error", channel := none,
    data := ⟨"\x7b\"code\":4001,\"message\":\"forced\"\x7d",
             some (.obj [("code", .num 4001), ("message", .str "forced")])⟩ }

/-- The state of `connEx` after a user-initiated disconnect: socket gone,
timers cleared, state `disconnected`, socket id retained. -/
def discConnEx : Connection :=
  { ws := false, state := .disconnected, reconnectAttempts := 0,
    reconnectTimer := none, activityTimer := none,
    socketId := some (.str "123.456") }

/-- A presence channel already holding members A and B. -/
def chAB : PChan :=
  { subscribed := true,
    presence := ⟨2, ["A", "B"], .obj [("A", .obj []), ("B", .obj [])]⟩,
    self := none }

/-- A subscription-succeeded snapshot containing exactly member C, whose
wire count field (5) disagrees with the length of its ids list (1). -/
def snapC : Json :=
  .obj [("presence", .obj
    [("count", .num 5),
     ("ids", .arr [.str "C"]),
     ("hash", .obj [("C", .obj [("name", .str "c")])])])]

/-- A client with the presence channel "presence-room" registered and a
pending self identity stored for it. -/
def apRegEx : ApinatorM :=
  { channels := [("presence-room",
      ⟨"presence-room", true, { subscribed := false }⟩)],
    pendingPresenceSelf := [("presence-room", ⟨"u1", .obj []⟩)],
    authEndpoint := some "https://auth.example/token",
    connId := some "sock-1", connState := .connected, inflightAuth := [] }

/-- A subscription-succeeded frame addressed to "presence-room". -/
def subOkFrame : Message :=
  { event := "realtime:subscription_succeeded",
    channel := some "presence-room",
    data := ⟨"\x7b\x7d", some (.obj [])⟩ }

/-- A subscription-error frame addressed to "presence-room". -/
def subErrFrame : Message :=
  { event := "realtime:subscription_error",
    channel := some "presence-room",
    data := ⟨"\x7b\x7d", some (.obj [])⟩ }

/-- A fresh connected client configured with an auth endpoint. -/
def apEx : ApinatorM :=
  { channels := [], pendingPresenceSelf := [],
    authEndpoint := some "https://auth.example/token",
    connId := some "sock-1", connState := .connected, inflightAuth := [] }

/-- Auth channel data decoding to the self identity u1. -/
def goodChannelData : RawJson :=
  ⟨"\x7b\"user_id\":\"u1\",\"user_info\":\x7b\x7d\x7d",
   some (.obj [("user_id", .str "u1"), ("user_info", .obj [])])⟩

/-- The race of C9: subscribe to a presence channel while connected (the
auth gateway call goes in flight), unsubscribe before it resolves, then
the gateway resolves successfully, and a subscription-error frame for the
now-unregistered channel arrives. -/
def lateAuthTrace : List AppEvent :=
  [.subscribeEvt "presence-room",
   .unsubscribeEvt "presence-room",
   .authResolveEvt "presence-room" (.ok ⟨"sig", some goodChannelData⟩),
   .frameEvt subErrFrame]

/-! ## Theorems -/

/-- C1: an unexpected Transport close while not already disconnected and
with the reconnect counter n below the ceiling 6 clears the activity
timer, moves the state to `connecting`, increments the counter and leaves
exactly one scheduled reconnection attempt after `min(1000 * 2^n, 30000)`
ms with n the pre-increment counter (so n = 0..5 wait 1s, 2s, 4s, 8s,
16s, 30s); a close finding the counter at 6 moves the state to
`unavailable` with no scheduled attempt. -/
theorem unexpected_close_backoff (c : Connection)
    (h : c.state ≠ .disconnected) :
    (c.reconnectAttempts < 6 →
      c.handleDisconnect.1.state = .connecting ∧
      c.handleDisconnect.1.activityTimer = none ∧
      c.handleDisconnect.1.reconnectTimer =
        some (min (1000 * 2 ^ c.reconnectAttempts) 30000) ∧
      c.handleDisconnect.1.reconnectAttempts = c.reconnectAttempts + 1) ∧
    (c.reconnectAttempts = 6 →
      c.handleDisconnect.1.state = .unavailable ∧
      c.handleDisconnect.1.reconnectTimer = none ∧
      c.handleDisconnect.1.activityTimer = none) ∧
    (min (1000 * 2 ^ 0) 30000 = 1000 ∧ min (1000 * 2 ^ 1) 30000 = 2000 ∧
     min (1000 * 2 ^ 2) 30000 = 4000 ∧ min (1000 * 2 ^ 3) 30000 = 8000 ∧
     min (1000 * 2 ^ 4) 30000 = 16000 ∧ min (1000 * 2 ^ 5) 30000 = 30000) := by
  refine ⟨fun hn => ?_, fun hn => ?_, by decide⟩
  · simp [Connection.handleDisconnect, Connection.clearTimers,
      Connection.setState, h, hn]
    split <;> simp
  · simp [Connection.handleDisconnect, Connection.clearTimers,
      Connection.setState, h, hn]
    split <;> simp

/-- C1 witness: a connected connection with counter 0 schedules a 1000 ms
attempt and moves to `connecting`; a connection whose counter already
reached 6 becomes `unavailable` with nothing scheduled. -/
theorem unexpected_close_backoff_witness :
    connEx.state ≠ ConnectionState.disconnected ∧
    connEx.handleDisconnect.1.state = ConnectionState.connecting ∧
    connEx.handleDisconnect.1.activityTimer = none ∧
    connEx.handleDisconnect.1.reconnectTimer = some 1000 ∧
    connEx.handleDisconnect.1.reconnectAttempts = 1 ∧
    exhaustedConnEx.state ≠ ConnectionState.disconnected ∧
    exhaustedConnEx.handleDisconnect.1.state = ConnectionState.unavailable ∧
    exhaustedConnEx.handleDisconnect.1.reconnectTimer = none := by
  have h0 := unexpected_close_backoff connEx (by decide)
  have h6 := unexpected_close_backoff exhaustedConnEx (by decide)
  obtain ⟨ha, -, -⟩ := h0
  obtain ⟨-, hb, -⟩ := h6
  obtain ⟨h1, h2, h3, h4⟩ := ha (by decide)
  obtain ⟨h5, h7, -⟩ := hb (by decide)
  exact ⟨by decide, h1, h2, h3, h4, by decide, h5, h7⟩

/-- C2: an inbound `realtime:error` frame whose decoded payload carries a
numeric code in 4000..4004 takes the user-initiated disconnect path: the
step equals `disconnect()` — timers cleared, state `disconnected`, socket
closed with code 1000, no reconnect timer left — and the close callback
that fires afterwards is a strict no-op (same state, no effects, nothing
scheduled), so no reconnection attempt ever follows. -/
theorem fatal_error_disconnects (c : Connection) (m : Message) (d : Json)
    (k : Int) (hev : m.event = "realtime:error")
    (hd : m.data.parsed = some d)
    (hcode : jsGet d "code" = some (.num k))
    (hlo : 4000 ≤ k) (hhi : k ≤ 4004)
    (hws : c.ws = true) :
    c.step (.frame (some m)) = some c.disconnect ∧
    c.disconnect.1.state = .disconnected ∧
    c.disconnect.1.reconnectTimer = none ∧
    c.disconnect.1.activityTimer = none ∧
    c.disconnect.1.ws = false ∧
    ConnEff.wsClose 1000 ∈ c.disconnect.2 ∧
    c.disconnect.1.step .closeEvt = some (c.disconnect.1, []) := by
  have hacc : jsAccess d "code" = some (some (.num k)) := by
    cases d <;> simp_all [jsAccess, jsGet, Json.entries]
  have hfatal : isFatalCode (some (.num k)) = true := by
    simp [isFatalCode, jsToNum, hlo, hhi]
  refine ⟨?_, ?_, ?_, ?_, ?_, ?_, ?_⟩ <;>
    simp [Connection.step, Connection.handleMessage, Connection.disconnect,
      Connection.handleDisconnect, Connection.clearTimers, Connection.setState,
      hev, hd, hacc, hfatal, hws] <;>
    split <;> simp

/-- C2 witness: the fatal code-4001 error frame on a live connected
connection disconnects it, closes the socket normally, and the subsequent
close callback is ignored. -/
theorem fatal_error_disconnects_witness :
    fatalErrMsg.event = "realtime:error" ∧
    connEx.ws = true ∧
    connEx.step (.frame (some fatalErrMsg)) = some connEx.disconnect ∧
    connEx.disconnect.1.state = .disconnected ∧
    connEx.disconnect.1.reconnectTimer = none ∧
    connEx.disconnect.1.activityTimer = none ∧
    connEx.disconnect.1.ws = false ∧
    ConnEff.wsClose 1000 ∈ connEx.disconnect.2 ∧
    connEx.disconnect.1.step .closeEvt = some (connEx.disconnect.1, []) := by
  have h := fatal_error_disconnects connEx fatalErrMsg
    (.obj [("code", .num 4001), ("message", .str "forced")]) 4001
    rfl rfl rfl (by decide) (by decide) rfl
  exact ⟨rfl, rfl, h.1, h.2.1, h.2.2.1, h.2.2.2.1, h.2.2.2.2.1,
    h.2.2.2.2.2.1, h.2.2.2.2.2.2⟩

/-- C3: with the keepalive ping sent and the 30s grace timer running, the
arrival of an inbound `realtime:pong` frame leaves the grace timer armed
— no code path cancels it on activity, despite the source's comment that
the reset is "handled by receiving any message" — so when the grace timer
fires the Transport is force-closed even though a frame arrived within
the 30 seconds. -/
theorem pong_leaves_grace_timer_armed :
    Connection.run graceConnEx [.frame (some pongMsg), .graceFire] =
      some ({ graceConnEx with activityTimer := none },
            [.emitMessage pongMsg, .wsForceClose]) := rfl

theorem disconnect_preserves_socketId (c : Connection) :
    c.disconnect.1.socketId = c.socketId := by
  simp only [Connection.disconnect, Connection.clearTimers, Connection.setState]
  split <;> split <;> simp

theorem handleDisconnect_preserves_socketId (c : Connection) :
    c.handleDisconnect.1.socketId = c.socketId := by
  simp only [Connection.handleDisconnect, Connection.clearTimers,
    Connection.setState]
  split <;> [skip; split] <;> [rfl; skip; skip] <;> split <;> simp

theorem connect_preserves_socketId (c : Connection) :
    c.connect.1.socketId = c.socketId := by
  simp only [Connection.connect, Connection.setState]
  split <;> [rfl; split <;> simp]

theorem step_preserves_socketId (c : Connection) (e : ConnEvent)
    (r : Connection × List ConnEff) (hne : evtEstablishes e = false)
    (hr : c.step e = some r) : r.1.socketId = c.socketId := by
  cases e with
  | frame p =>
    cases p with
    | none =>
      simp only [Connection.step, Option.some.injEq] at hr
      rw [← hr]
    | some m =>
      have hm : ¬m.event = "realtime:connection_established" := by
        simpa [evtEstablishes] using hne
      simp only [Connection.step] at hr
      by_cases hws : c.ws
      · rw [if_pos hws] at hr
        unfold Connection.handleMessage at hr
        rw [if_neg hm] at hr
        by_cases h2 : m.event = "realtime:pong"
        · rw [if_pos h2] at hr
          simp only [Option.some.injEq] at hr
          rw [← hr]
        · rw [if_neg h2] at hr
          by_cases h3 : m.event = "realtime:error"
          · rw [if_pos h3] at hr
            cases hp : m.data.parsed with
            | none => rw [hp] at hr; exact absurd hr (by simp)
            | some d =>
              rw [hp] at hr
              dsimp only [] at hr
              cases hacc : jsAccess d "code" with
              | none => rw [hacc] at hr; exact absurd hr (by simp)
              | some cv =>
                rw [hacc] at hr
                dsimp only [] at hr
                by_cases hfat : isFatalCode cv = true
                · rw [if_pos hfat] at hr
                  simp only [Option.some.injEq] at hr
                  rw [← hr]
                  exact disconnect_preserves_socketId c
                · rw [if_neg hfat] at hr
                  simp only [Option.some.injEq] at hr
                  rw [← hr]
          · rw [if_neg h3] at hr
            simp only [Option.some.injEq] at hr
            rw [← hr]
      · rw [if_neg hws] at hr
        simp only [Option.some.injEq] at hr
        rw [← hr]
  | closeEvt =>
    simp only [Connection.step, Option.some.injEq] at hr
    rw [← hr]
    exact handleDisconnect_preserves_socketId c
  | userDisconnect =>
    simp only [Connection.step, Option.some.injEq] at hr
    rw [← hr]
    exact disconnect_preserves_socketId c
  | userConnect =>
    simp only [Connection.step, Option.some.injEq] at hr
    rw [← hr]
    exact connect_preserves_socketId c
  | pingFire =>
    simp only [Connection.step] at hr
    cases hat : c.activityTimer with
    | none => rw [hat] at hr; simp only [Option.some.injEq] at hr; rw [← hr]
    | some t =>
      cases t with
      | main ts =>
        rw [hat] at hr
        simp only [Option.some.injEq] at hr
        rw [← hr]
      | grace =>
        rw [hat] at hr
        simp only [Option.some.injEq] at hr
        rw [← hr]
  | graceFire =>
    simp only [Connection.step] at hr
    cases hat : c.activityTimer with
    | none => rw [hat] at hr; simp only [Option.some.injEq] at hr; rw [← hr]
    | some t =>
      cases t with
      | main ts =>
        rw [hat] at hr
        simp only [Option.some.injEq] at hr
        rw [← hr]
      | grace =>
        rw [hat] at hr
        simp only [Option.some.injEq] at hr
        rw [← hr]
  | reconnectFire =>
    simp only [Connection.step] at hr
    cases hrt : c.reconnectTimer with
    | none => rw [hrt] at hr; simp only [Option.some.injEq] at hr; rw [← hr]
    | some d =>
      rw [hrt] at hr
      simp only [Option.some.injEq] at hr
      rw [← hr]
      exact connect_preserves_socketId _

/-- C10: the stored connection identifier survives every event that is not
a new `realtime:connection_established` frame — user disconnects,
unexpected Transport closes, timer expiries, reaching `unavailable` — so
after any such sequence the public socket-id accessor still returns the
identifier from the previous session, and starting from a fresh connection
it stays null until the first establishment. -/
theorem socketId_persists (evts : List ConnEvent) :
    ∀ (c : Connection) (r : Connection × List ConnEff),
      (evts.all fun e => !evtEstablishes e) = true →
      c.run evts = some r → r.1.socketId = c.socketId := by
  induction evts with
  | nil =>
    intro c r _ hr
    simp only [Connection.run, Option.some.injEq] at hr
    rw [← hr]
  | cons e es ih =>
    intro c r hall hr
    rw [List.all_cons, Bool.and_eq_true] at hall
    obtain ⟨he, hes⟩ := hall
    simp only [Connection.run] at hr
    cases hstep : c.step e with
    | none => rw [hstep] at hr; exact absurd hr (by simp)
    | some r1 =>
      obtain ⟨c1, effs1⟩ := r1
      rw [hstep] at hr
      dsimp only [] at hr
      cases hrun : c1.run es with
      | none => rw [hrun] at hr; exact absurd hr (by simp)
      | some r2 =>
        obtain ⟨c2, effs2⟩ := r2
        rw [hrun] at hr
        simp only [Option.some.injEq] at hr
        rw [← hr]
        have h1 := step_preserves_socketId c e (c1, effs1)
          (by simpa using he) hstep
        have h2 := ih c1 (c2, effs2) hes hrun
        exact h2.trans h1

/-- C10 witness: after `disconnect()` followed by the Transport close
callback, the socket id stored from the earlier establishment is still
returned. -/
theorem socketId_persists_witness :
    (([ConnEvent.userDisconnect, ConnEvent.closeEvt].all
        fun e => !evtEstablishes e) = true) ∧
    connEx.run [ConnEvent.userDisconnect, ConnEvent.closeEvt] =
      some (discConnEx,
        [.stateChange .connected .disconnected, .wsClose 1000]) ∧
    discConnEx.socketId = connEx.socketId := by
  refine ⟨rfl, rfl, ?_⟩
  exact socketId_persists [ConnEvent.userDisconnect, ConnEvent.closeEvt]
    connEx (discConnEx,
      [.stateChange .connected .disconnected, .wsClose 1000]) rfl rfl

/-- C5: after construction, presence-state clearing, snapshot handling,
member-added and member-removed, `memberCount` equals the length of the
member-ID sequence; in particular it is recomputed from the id sequence of
a snapshot and never taken from the wire count field. -/
theorem memberCount_matches_ids :
    ((({} : PChan).memberCount = (({} : PChan).presence.ids.length : Int)) ∧
     (∀ ch : PChan, ch.clearPresenceState.memberCount =
        (ch.clearPresenceState.presence.ids.length : Int))) ∧
    (∀ (ch : PChan) (data : Json) (self : Option PresenceInfo),
      (ch.handleSubscribed data self).memberCount =
        (((ch.handleSubscribed data self).presence.ids.length : Int))) ∧
    (∀ (ch : PChan) (info : PresenceInfo),
      (ch.handleMemberAdded info).memberCount =
        ((ch.handleMemberAdded info).presence.ids.length : Int)) ∧
    (∀ (ch : PChan) (uid : String),
      (ch.handleMemberRemoved uid).memberCount =
        ((ch.handleMemberRemoved uid).presence.ids.length : Int)) ∧
    (∀ (ch : PChan) (data : Json) (self : Option PresenceInfo),
      (ch.handleSubscribed data self).memberCount =
        ((snapIds data).length : Int)) := by
  refine ⟨⟨rfl, fun ch => rfl⟩, fun ch data self => ?_, fun ch info => rfl,
    fun ch uid => rfl, fun ch data self => ?_⟩
  · simp only [PChan.handleSubscribed, PChan.clearPresenceState,
      PChan.memberCount]
    cases self <;> split <;> rfl
  · simp only [PChan.handleSubscribed, PChan.clearPresenceState,
      PChan.memberCount, snapIds]
    cases self <;> split <;> simp_all

theorem handleSubscribed_presence (ch : PChan) (data : Json)
    (self : Option PresenceInfo) :
    (ch.handleSubscribed data self).presence =
      ⟨((snapIds data).length : Int), snapIds data, snapHash data⟩ := by
  simp only [PChan.handleSubscribed, PChan.clearPresenceState, snapIds,
    snapHash]
  cases self <;> split <;> simp_all

/-- C6: handling a subscription-succeeded snapshot wholesale replaces a
presence channel's state: afterwards `getMembers` is determined by the
snapshot alone (the snapshot ids that have a truthy user-info hash entry),
independent of every prior member, and `getMember` returns nothing for any
id without such a hash entry in the new snapshot — in particular for every
previously-present member absent from it. -/
theorem snapshot_replaces_presence (ch : PChan) (data : Json)
    (self : Option PresenceInfo) (uid : String)
    (h : truthyGet (snapHash data) uid = false) :
    (ch.handleSubscribed data self).getMembers = membersFromSnapshot data ∧
    (ch.handleSubscribed data self).getMember uid = none := by
  have hp := handleSubscribed_presence ch data self
  constructor
  · simp only [PChan.getMembers, hp, membersFromSnapshot]
  · simp only [PChan.getMember, hp]
    revert h
    simp only [truthyGet]
    cases jsGet (snapHash data) uid with
    | none => intro _; rfl
    | some v => intro h; dsimp only [] at h; simp [h]

/-- C6 witness: a channel holding members A and B, reconciled with a
snapshot containing exactly C, afterwards lists exactly C and reports
nothing for A and for B. -/
theorem snapshot_replaces_presence_witness :
    ((chAB.handleSubscribed snapC none).getMembers =
        membersFromSnapshot snapC ∧
      (chAB.handleSubscribed snapC none).getMember "A" = none) ∧
    ((chAB.handleSubscribed snapC none).getMember "B" = none) ∧
    membersFromSnapshot snapC = [⟨"C", .obj [("name", .str "c")]⟩] ∧
    truthyGet (snapHash snapC) "A" = false ∧
    truthyGet (snapHash snapC) "B" = false ∧
    chAB.getMember "A" = some ⟨"A", .obj []⟩ := by
  refine ⟨snapshot_replaces_presence chAB snapC none "A" rfl,
    (snapshot_replaces_presence chAB snapC none "B" rfl).2,
    rfl, rfl, rfl, rfl⟩

/-- C7: for a presence channel with an auth endpoint configured and a
connection id available, a successful auth gateway response without
channel_data yields exactly one subscription-error signal of kind
AuthError, reason "channel_data required for presence channels", status
403, and no subscribe frame; a truthy channel_data that does not decode to
a self identity (non-empty string user_id, non-array object user_info)
yields the same with reason "invalid channel_data"; in both cases the
pending self entry for the channel is dropped. -/
theorem presence_channel_data_validation
    (endpoint connId : Option String)
    (pending : List (String × PresenceInfo))
    (name : String) (resp : AuthResponse)
    (hp : strStarts name "presence-" = true)
    (he : strFalsy endpoint = false)
    (hc : strFalsy connId = false) :
    (resp.channel_data = none →
      sendSubscribe endpoint connId pending name (.ok resp) =
        (pdelete pending name,
         [.errorSignal "AuthError"
            "channel_data required for presence channels" 403])) ∧
    (∀ cd : RawJson, resp.channel_data = some cd → cd.raw ≠ "" →
      parsePresenceSelf cd = none →
      sendSubscribe endpoint connId pending name (.ok resp) =
        (pdelete pending name,
         [.errorSignal "AuthError" "invalid channel_data" 403])) := by
  have hor : (strStarts name "private-" || strStarts name "presence-")
      = true := by simp [hp]
  constructor
  · intro hcd
    simp [sendSubscribe, hor, he, hc, authContinuation, hp, hcd]
  · intro cd hcd hraw hparse
    simp [sendSubscribe, hor, he, hc, authContinuation, hp, hcd, hraw, hparse]

/-- C7 witness: with endpoint and connection id present, an auth response
without channel_data signals the required-channel-data error and sends no
frame, and one whose channel_data is not JSON signals invalid
channel_data. -/
theorem presence_channel_data_validation_witness :
    (strStarts "presence-room" "presence-" = true) ∧
    sendSubscribe (some "https://auth.example/token") (some "sock-1") []
      "presence-room" (.ok ⟨"sig", none⟩) =
      ([], [.errorSignal "AuthError"
            "channel_data required for presence channels" 403]) ∧
    sendSubscribe (some "https://auth.example/token") (some "sock-1") []
      "presence-room" (.ok ⟨"sig", some ⟨"oops", none⟩⟩) =
      ([], [.errorSignal "AuthError" "invalid channel_data" 403]) := by
  have h1 := presence_channel_data_validation
    (some "https://auth.example/token") (some "sock-1") []
    "presence-room" ⟨"sig", none⟩ (by decide) rfl rfl
  have h2 := presence_channel_data_validation
    (some "https://auth.example/token") (some "sock-1") []
    "presence-room" ⟨"sig", some ⟨"oops", none⟩⟩ (by decide) rfl rfl
  exact ⟨by decide, h1.1 rfl, h2.2 ⟨"oops", none⟩ rfl (by decide) rfl⟩

theorem alookup_eq_none_not_mem {α : Type} (l : List (String × α))
    (k : String) (h : alookup l k = none) : ∀ p ∈ l, p.1 ≠ k := by
  induction l with
  | nil => intro p hp; cases hp
  | cons x xs ih =>
    intro p hp
    rw [alookup] at h
    by_cases hx : x.1 = k
    · rw [if_pos hx] at h; cases h
    · rw [if_neg hx] at h
      cases hp with
      | head => exact hx
      | tail _ hmem => exact ih h p hmem

/-- C8: calling subscribe on an already-registered name returns the
registered instance with the registry unchanged and no effects — no new
instance, no internal binding, no subscribe handshake; and subscribe
preserves uniqueness of names in the registry, so each name maps to at
most one instance for the registry's lifetime. -/
theorem subscribe_idempotent (a : ApinatorM) (name : String) (c : ChanM)
    (h : alookup a.channels name = some c) :
    a.subscribe name = (c, a, []) ∧
    (∀ (b : ApinatorM) (n : String),
      (b.channels.map Prod.fst).Nodup →
      ((b.subscribe n).2.1.channels.map Prod.fst).Nodup) := by
  constructor
  · simp [ApinatorM.subscribe, h]
  · intro b n hnd
    cases hl : alookup b.channels n with
    | some c' => simp [ApinatorM.subscribe, hl, hnd]
    | none =>
      have hchan : (b.subscribe n).2.1.channels =
          b.channels ++ [(n, ⟨n, strStarts n "presence-", {}⟩)] := by
        simp only [ApinatorM.subscribe, hl]
        repeat' split
        all_goals rfl
      rw [hchan]
      have hnotmem := alookup_eq_none_not_mem b.channels n hl
      simp only [List.map_append, List.map_cons, List.map_nil]
      rw [List.nodup_append]
      refine ⟨hnd, List.nodup_singleton n, ?_⟩
      intro x hx hy
      simp only [List.mem_singleton] at hy
      obtain ⟨p, hp, hpx⟩ := List.mem_map.mp hx
      exact hnotmem p hp (hpx.trans hy)

/-- C8 witness: subscribing "presence-room" again returns the registered
instance, leaves the registry untouched and produces no effects; and
subscribing a new name preserves name uniqueness. -/
theorem subscribe_idempotent_witness :
    alookup apRegEx.channels "presence-room" =
      some ⟨"presence-room", true, { subscribed := false }⟩ ∧
    apRegEx.subscribe "presence-room" =
      (⟨"presence-room", true, { subscribed := false }⟩, apRegEx, []) ∧
    ((apRegEx.subscribe "room-2").2.1.channels.map Prod.fst).Nodup := by
  have h := subscribe_idempotent apRegEx "presence-room"
    ⟨"presence-room", true, { subscribed := false }⟩ rfl
  exact ⟨rfl, h.1, h.2 apRegEx "room-2" (by simp [apRegEx])⟩

theorem alookup_pdelete {α : Type} (l : List (String × α)) (k : String) :
    alookup (pdelete l k) k = none := by
  induction l with
  | nil => rfl
  | cons x xs ih =>
    by_cases hx : x.1 = k
    · simp only [pdelete, List.filter_cons, hx]
      simp only [ne_eq, not_true_eq_false, decide_False, Bool.false_eq_true,
        if_false]
      exact ih
    · simp only [pdelete, List.filter_cons]
      rw [if_pos (by simp [hx])]
      rw [alookup, if_neg hx]
      exact ih

/-- C9 counterexample: subscribe to "presence-room" while connected,
unsubscribe before the auth gateway resolves, then let it resolve with
valid channel_data — the continuation stores a pending self identity for
the already-removed channel, and even a later subscription-error frame
for that channel leaves the entry in place (frames for unregistered
channels are dropped before the map is touched), so a pending entry does
survive past the unsubscribe and error events. -/
theorem pending_self_survives_late_auth :
    alookup (apEx.runApp lateAuthTrace).pendingPresenceSelf
      "presence-room" = some ⟨"u1", .obj []⟩ ∧
    alookup (apEx.runApp lateAuthTrace).channels "presence-room" = none :=
  ⟨rfl, rfl⟩

/-- C9 amended: the pending self identity of a channel is cleared by its
subscription-succeeded event (presence channel), its subscription-error
event, and by unsubscribe, whenever the channel is registered when the
event arrives; but an auth gateway call that resolves only after
unsubscribe re-creates the entry, which then outlives those events (see
the counterexample), so the invariant holds only for executions without
a post-unsubscribe auth resolution for that channel. -/
theorem pending_self_cleared_on_events (a : ApinatorM) (name : String)
    (c : ChanM) (m : Message) :
    ((alookup a.channels name).isSome = true →
      alookup (a.unsubscribe name).1.pendingPresenceSelf name = none) ∧
    (alookup a.channels name = some c → m.channel = some name →
      m.event = "realtime:subscription_succeeded" → c.isPresence = true →
      alookup (a.routeMessage m).1.pendingPresenceSelf name = none) ∧
    (alookup a.channels name = some c → m.channel = some name →
      m.event = "realtime:subscription_error" →
      alookup (a.routeMessage m).1.pendingPresenceSelf name = none) := by
  refine ⟨?_, ?_, ?_⟩
  · intro h
    cases hl : alookup a.channels name with
    | none => rw [hl] at h; cases h
    | some c' =>
      simp only [ApinatorM.unsubscribe, hl]
      exact alookup_pdelete _ _
  · intro hl hch hev hpres
    obtain ⟨ev, chn, dat⟩ := m
    simp only at hch hev
    subst hch
    subst hev
    simp only [ApinatorM.routeMessage]
    rw [hl]
    dsimp only []
    rw [if_pos trivial, if_pos hpres]
    exact alookup_pdelete _ _
  · intro hl hch hev
    obtain ⟨ev, chn, dat⟩ := m
    simp only at hch hev
    subst hch
    subst hev
    simp only [ApinatorM.routeMessage]
    rw [hl]
    dsimp only []
    rw [if_pos trivial]
    exact alookup_pdelete _ _

/-- C9 witness for the amended claim: on a client with a registered
presence channel and a stored pending identity, unsubscribe, a
subscription-succeeded frame and a subscription-error frame each leave no
pending entry for the channel. -/
theorem pending_self_cleared_on_events_witness :
    (alookup apRegEx.channels "presence-room").isSome = true ∧
    alookup (apRegEx.unsubscribe "presence-room").1.pendingPresenceSelf
      "presence-room" = none ∧
    alookup (apRegEx.routeMessage subOkFrame).1.pendingPresenceSelf
      "presence-room" = none ∧
    alookup (apRegEx.routeMessage subErrFrame).1.pendingPresenceSelf
      "presence-room" = none := by
  have h := pending_self_cleared_on_events apRegEx "presence-room"
    ⟨"presence-room", true, { subscribed := false }⟩ subOkFrame
  have h' := pending_self_cleared_on_events apRegEx "presence-room"
    ⟨"presence-room", true, { subscribed := false }⟩ subErrFrame
  exact ⟨rfl, h.1 rfl, h.2.1 rfl rfl rfl rfl, h'.2.2 rfl rfl rfl⟩
